import Mathlib

/-!
Shallow embedding of `src/script.js` (client-side interactivity for a static
page): the feature-details notification table, the light/dark theme toggle
state machine, the counter animation, the intersection-observer triggers, the
clock tick with its formatting fallback, the notification lifecycle timing,
and the feature-item "active" class handling. Machine arithmetic in the
source is JS numbers; the properties proved here depend only on order and
field arithmetic, modelled over ℚ/ℤ/ℕ.
-/

/-- The fixed four-entry descriptor table of `showFeatureDetails`
(src/script.js lines 248-253). -/
def features : List (String × String) :=
  [ ("Modern Design", "Clean and contemporary UK-focused design"),
    ("Responsive Layout", "Perfect display on all devices"),
    ("Fast Loading", "Optimized for quick page loads"),
    ("Accessible", "Built with accessibility in mind") ]

/-- `showFeatureDetails(index)` (src/script.js lines 247-259): looks up the
descriptor at `index`; if one exists it shows a notification whose message is
`title + ": " + description`, otherwise it does nothing. The returned
`Option String` is the message of the notification shown, `none` when no
notification is shown. -/
def showFeatureDetails (index : ℕ) : Option String :=
  match features[index]? with
  | some feature => some (feature.1 ++ ": " ++ feature.2)
  | none => none

/-- Observable theme state: the document root's `data-theme` attribute
(`none` when the attribute is absent; `getAttribute` returns null then),
the persistent storage entry under key `"theme"` (`none` when absent), and
the toggle control's icon and `aria-label`/`title` label. -/
structure ThemeState where
  dataTheme : Option String
  stored : Option String
  icon : String
  label : String
deriving DecidableEq

/-- `updateThemeToggleIcon(theme)` (src/script.js lines 129-139): sets the
control's icon to a sun when `theme` is `"dark"`, a moon otherwise, and the
label to "Switch to light mode" when dark, "Switch to dark mode" otherwise. -/
def updateThemeToggleIcon (theme : String) (s : ThemeState) : ThemeState :=
  let icon := if theme = "dark" then "☀️" else "🌙"
  let label := if theme = "dark" then "Switch to light mode" else "Switch to dark mode"
  { s with icon := icon, label := label }

/-- Net effect of one activation of the theme toggle (the click listener at
src/script.js lines 106-123) once its two timeouts have run: reads the
current `data-theme` attribute, computes `newTheme` as `"light"` exactly when
the current value is `"dark"` and `"dark"` otherwise, writes `newTheme` to
the attribute and to storage key `"theme"`, and updates the icon/label.
(The `theme-transition` body class is added and removed again inside the
same activation, leaving no observable trace, so it is not part of the
state.) -/
def toggleTheme (s : ThemeState) : ThemeState :=
  let currentTheme := s.dataTheme
  let newTheme := if currentTheme = some "dark" then "light" else "dark"
  updateThemeToggleIcon newTheme { s with dataTheme := some newTheme, stored := some newTheme }

/-- Initialization (src/script.js lines 102-104): `savedTheme` is the stored
value, defaulting to `"light"` when absent; it is written to the `data-theme`
attribute (storage itself is not written at init) and the icon/label are
updated. The icon/label fields before init come from the page markup, which
is irrelevant because `updateThemeToggleIcon` overwrites both. -/
def themeInit (saved : Option String) : ThemeState :=
  let savedTheme := saved.getD "light"
  updateThemeToggleIcon savedTheme
    { dataTheme := some savedTheme, stored := saved, icon := "", label := "" }

/-- C1: for each index 0-3, clicking feature item `i` shows a notification
whose message is `"<title_i>: <description_i>"` from the fixed table; for
every index ≥ 4 the lookup finds no descriptor and no notification is
shown. -/
theorem showFeatureDetails_spec :
    showFeatureDetails 0 = some "Modern Design: Clean and contemporary UK-focused design" ∧
    showFeatureDetails 1 = some "Responsive Layout: Perfect display on all devices" ∧
    showFeatureDetails 2 = some "Fast Loading: Optimized for quick page loads" ∧
    showFeatureDetails 3 = some "Accessible: Built with accessibility in mind" ∧
    ∀ i : ℕ, 4 ≤ i → showFeatureDetails i = none := by
  refine ⟨rfl, rfl, rfl, rfl, ?_⟩
  intro i hi
  have hlen : features.length ≤ i := by simpa [features] using hi
  simp [showFeatureDetails, List.getElem?_eq_none hlen]

/-- Witness for `showFeatureDetails_spec`: index 7 is out of range and shows
no notification. -/
theorem showFeatureDetails_spec_witness :
    (4 ≤ 7) ∧ showFeatureDetails 7 = none :=
  ⟨by decide, showFeatureDetails_spec.2.2.2.2 7 (by decide)⟩

/-- C2: a single toggle activation from the light state produces the dark
state: the `data-theme` attribute becomes `"dark"`, `"dark"` is written to
storage under key `"theme"`, and the control's label becomes
"Switch to light mode". -/
theorem toggleTheme_from_light (s : ThemeState) (h : s.dataTheme = some "light") :
    (toggleTheme s).dataTheme = some "dark" ∧
    (toggleTheme s).stored = some "dark" ∧
    (toggleTheme s).label = "Switch to light mode" := by
  simp [toggleTheme, updateThemeToggleIcon, h]

/-- Witness for `toggleTheme_from_light` at the freshly initialized default
state (nothing stored yet). -/
theorem toggleTheme_from_light_witness :
    (themeInit none).dataTheme = some "light" ∧
    ((toggleTheme (themeInit none)).dataTheme = some "dark" ∧
      (toggleTheme (themeInit none)).stored = some "dark" ∧
      (toggleTheme (themeInit none)).label = "Switch to light mode") :=
  ⟨rfl, toggleTheme_from_light (themeInit none) rfl⟩

/-- C9: any current `data-theme` value other than exactly `"dark"` —
including an absent attribute — toggles to `"dark"`; only the exact value
`"dark"` toggles to `"light"`. -/
theorem toggleTheme_newTheme_cases (s : ThemeState) :
    (s.dataTheme ≠ some "dark" → (toggleTheme s).dataTheme = some "dark") ∧
    (s.dataTheme = some "dark" → (toggleTheme s).dataTheme = some "light") := by
  constructor
  · intro h
    simp [toggleTheme, updateThemeToggleIcon, h]
  · intro h
    simp [toggleTheme, updateThemeToggleIcon, h]

/-- Witness for `toggleTheme_newTheme_cases`: a state whose `data-theme`
attribute is absent (an arbitrary invalid starting point) toggles to dark. -/
theorem toggleTheme_newTheme_cases_witness :
    (ThemeState.mk none none "" "").dataTheme ≠ some "dark" ∧
    (toggleTheme (ThemeState.mk none none "" "")).dataTheme = some "dark" :=
  ⟨by simp, (toggleTheme_newTheme_cases (ThemeState.mk none none "" "")).1 (by simp)⟩

/-- C3 counterexample: the claim quantifies over every starting theme state
(light or dark) and demands that every observable component, the stored
`"theme"` value included, return to its initial value after a double toggle.
The fresh default state `themeInit none` — the state initialization actually
produces on a first visit, with `data-theme = "light"` and nothing stored —
violates it: after two toggles the storage holds `"light"` where it
initially held nothing. -/
theorem double_toggle_not_identity_on_fresh_state :
    (themeInit none).dataTheme = some "light" ∧
    (themeInit none).stored = none ∧
    (toggleTheme (toggleTheme (themeInit none))).stored = some "light" ∧
    toggleTheme (toggleTheme (themeInit none)) ≠ themeInit none := by
  refine ⟨rfl, rfl, rfl, ?_⟩
  intro h
  have hs := congrArg ThemeState.stored h
  simp [themeInit, updateThemeToggleIcon, toggleTheme] at hs

/-- C3 amended: for every starting state whose stored value is present and
matches the displayed theme `t ∈ {"light", "dark"}` with canonical
icon/label (i.e. `themeInit (some t)`), a double toggle is the identity on
all observable components; from the fresh default-light state the double
toggle restores the `data-theme` attribute, icon and label, but leaves
`"light"` written to storage where storage was initially empty. -/
theorem double_toggle_identity_of_consistent :
    (∀ t : String, t = "light" ∨ t = "dark" →
      toggleTheme (toggleTheme (themeInit (some t))) = themeInit (some t)) ∧
    (toggleTheme (toggleTheme (themeInit none))).dataTheme = (themeInit none).dataTheme ∧
    (toggleTheme (toggleTheme (themeInit none))).icon = (themeInit none).icon ∧
    (toggleTheme (toggleTheme (themeInit none))).label = (themeInit none).label ∧
    (toggleTheme (toggleTheme (themeInit none))).stored = some "light" := by
  refine ⟨?_, rfl, rfl, rfl, rfl⟩
  rintro t (rfl | rfl) <;> rfl

/-- Witness for `double_toggle_identity_of_consistent`: double toggle is the
identity on the consistent dark state. -/
theorem double_toggle_identity_of_consistent_witness :
    ("dark" = "light" ∨ "dark" = "dark") ∧
    toggleTheme (toggleTheme (themeInit (some "dark"))) = themeInit (some "dark") :=
  ⟨Or.inr rfl, double_toggle_identity_of_consistent.1 "dark" (Or.inr rfl)⟩

/-- The fixed animation duration of `initializeCounters`
(src/script.js line 269). -/
def counterDuration : ℚ := 2000

/-- `increment = target / (duration / 16)` (src/script.js line 270); with
`duration = 2000` this is `target / 125`. -/
def counterIncrement (target : ℤ) : ℚ := (target : ℚ) / (counterDuration / 16)

/-- The accumulated `current` variable after `n` executions of
`current += increment` (src/script.js lines 271-274), starting from 0. -/
def counterCurrent (target : ℤ) : ℕ → ℚ
  | 0 => 0
  | n + 1 => counterCurrent target n + counterIncrement target

/-- The value `updateCounter` writes to the element when the accumulated
value is `counterCurrent target n` (src/script.js lines 273-281): while
`current < target` it displays `Math.floor(current)` and schedules another
frame; otherwise it displays exactly `target` and stops. -/
def counterDisplay (target : ℤ) (n : ℕ) : ℤ :=
  if counterCurrent target n < (target : ℚ) then ⌊counterCurrent target n⌋ else target

theorem counterCurrent_eq (target : ℤ) (n : ℕ) :
    counterCurrent target n = n * counterIncrement target := by
  induction n with
  | zero => simp [counterCurrent]
  | succ n ih => rw [counterCurrent, ih]; push_cast; ring

theorem counterIncrement_pos {target : ℤ} (h : 0 < target) :
    0 < counterIncrement target := by
  have : (0 : ℚ) < (target : ℚ) := by exact_mod_cast h
  unfold counterIncrement counterDuration
  positivity

theorem counterCurrent_mono {target : ℤ} (h : 0 < target) {m n : ℕ} (hmn : m ≤ n) :
    counterCurrent target m ≤ counterCurrent target n := by
  rw [counterCurrent_eq, counterCurrent_eq]
  have hinc := (counterIncrement_pos h).le
  have : (m : ℚ) ≤ (n : ℚ) := by exact_mod_cast hmn
  exact mul_le_mul_of_nonneg_right this hinc

theorem counterCurrent_at_125 (target : ℤ) :
    counterCurrent target 125 = (target : ℚ) := by
  rw [counterCurrent_eq]
  unfold counterIncrement counterDuration
  ring

/-- C4: for a positive integer target, the displayed value at every frame is
at most the target, once the accumulated value reaches or exceeds the target
the display is exactly the target, and the animation does stop: at frame 125
the accumulated value is no longer below the target, so the else branch runs
(no further animation frame is scheduled) and the display is exactly the
target. -/
theorem counter_never_exceeds_and_snaps (target : ℤ) (_h : 0 < target) :
    (∀ n : ℕ, counterDisplay target n ≤ target) ∧
    (∀ n : ℕ, (target : ℚ) ≤ counterCurrent target n → counterDisplay target n = target) ∧
    ¬ counterCurrent target 125 < (target : ℚ) ∧
    counterDisplay target 125 = target := by
  have hstop : ¬ counterCurrent target 125 < (target : ℚ) := by
    rw [counterCurrent_at_125]
    exact lt_irrefl _
  refine ⟨?_, ?_, hstop, ?_⟩
  · intro n
    unfold counterDisplay
    split
    · next hlt =>
      have hfloor : (⌊counterCurrent target n⌋ : ℚ) ≤ counterCurrent target n :=
        Int.floor_le _
      have : (⌊counterCurrent target n⌋ : ℚ) < (target : ℚ) := lt_of_le_of_lt hfloor hlt
      exact_mod_cast this.le
    · exact le_refl _
  · intro n hge
    unfold counterDisplay
    rw [if_neg (not_lt.mpr hge)]
  · unfold counterDisplay
    rw [if_neg hstop]

/-- Witness for `counter_never_exceeds_and_snaps` at the spec's example
target 50: the frame-3 display does not exceed 50 and frame 125 snaps to
exactly 50. -/
theorem counter_never_exceeds_and_snaps_witness :
    (0 < (50 : ℤ)) ∧ counterDisplay 50 3 ≤ 50 ∧ counterDisplay 50 125 = 50 :=
  ⟨by decide, (counter_never_exceeds_and_snaps 50 (by decide)).1 3,
    (counter_never_exceeds_and_snaps 50 (by decide)).2.2.2⟩

/-- C10: for a positive integer target the sequence of displayed values is
monotonically non-decreasing across frames, starting at 0 (the display
before any increment) and ending at exactly the target. -/
theorem counterDisplay_monotone (target : ℤ) (h : 0 < target) :
    counterDisplay target 0 = 0 ∧
    (∀ n : ℕ, counterDisplay target n ≤ counterDisplay target (n + 1)) ∧
    counterDisplay target 125 = target := by
  have hq : (0 : ℚ) < (target : ℚ) := by exact_mod_cast h
  refine ⟨?_, ?_, (counter_never_exceeds_and_snaps target h).2.2.2⟩
  · unfold counterDisplay counterCurrent
    rw [if_pos hq]
    simp
  · intro n
    have hmono : counterCurrent target n ≤ counterCurrent target (n + 1) :=
      counterCurrent_mono h (Nat.le_succ n)
    unfold counterDisplay
    split
    · next hn =>
      split
      · next hn1 => exact Int.floor_le_floor hmono
      · next hn1 =>
        have hfloor : (⌊counterCurrent target n⌋ : ℚ) ≤ counterCurrent target n :=
          Int.floor_le _
        have : (⌊counterCurrent target n⌋ : ℚ) < (target : ℚ) := lt_of_le_of_lt hfloor hn
        have hlt : ⌊counterCurrent target n⌋ < target := by exact_mod_cast this
        exact hlt.le
    · next hn =>
      have hn1 : ¬ counterCurrent target (n + 1) < (target : ℚ) := by
        intro hcon
        exact hn (lt_of_le_of_lt hmono hcon)
      rw [if_neg hn1]

/-- Witness for `counterDisplay_monotone` at target 50. -/
theorem counterDisplay_monotone_witness :
    (0 < (50 : ℤ)) ∧ counterDisplay 50 0 = 0 ∧ counterDisplay 50 7 ≤ counterDisplay 50 8 :=
  ⟨by decide, (counterDisplay_monotone 50 (by decide)).1,
    (counterDisplay_monotone 50 (by decide)).2.1 7⟩

/-- IntersectionObserver options: the threshold (a ratio in [0,1]) and the
four root margins in pixels (top, right, bottom, left). -/
structure ObserverOptions where
  threshold : ℚ
  rootMarginTop : ℤ
  rootMarginRight : ℤ
  rootMarginBottom : ℤ
  rootMarginLeft : ℤ
deriving DecidableEq

/-- Options of the entrance-animation observer (src/script.js lines 31-34):
`threshold: 0.1, rootMargin: '0px 0px -50px 0px'`. -/
def animationObserverOptions : ObserverOptions :=
  { threshold := 1 / 10, rootMarginTop := 0, rootMarginRight := 0,
    rootMarginBottom := -50, rootMarginLeft := 0 }

/-- Options of the counter observer (src/script.js lines 284-291): the
constructor is called with no options argument, so the API defaults apply:
threshold 0 and rootMargin `'0px 0px 0px 0px'`. -/
def counterObserverOptions : ObserverOptions :=
  { threshold := 0, rootMarginTop := 0, rootMarginRight := 0,
    rootMarginBottom := 0, rootMarginLeft := 0 }

/-- State of a one-shot observer: the elements currently observed and the
chronological list of elements whose callback action has run (for the
counter observer, `updateCounter()` started; for the animation observer,
the `animated` class added). Elements are identified by number. -/
structure ObserverState where
  observed : List ℕ
  fired : List ℕ
deriving DecidableEq

/-- The observer callback body for one entry (src/script.js lines 284-290
and 24-30): if the entry is intersecting, run the action and unobserve the
target. The API only delivers entries for currently observed targets, which
the membership guard models; unobserving removes the target from that set so
it can never be delivered again. -/
def observerProcessEntry (s : ObserverState) (e : ℕ × Bool) : ObserverState :=
  if e.2 = true ∧ e.1 ∈ s.observed then
    { observed := s.observed.erase e.1, fired := s.fired ++ [e.1] }
  else s

/-- Run the observer callback over a sequence of delivered entries. -/
def observerRun (s : ObserverState) (es : List (ℕ × Bool)) : ObserverState :=
  es.foldl observerProcessEntry s

theorem observerRun_observed_subset (es : List (ℕ × Bool)) :
    ∀ (s : ObserverState) (t : ℕ), t ∈ (observerRun s es).observed → t ∈ s.observed := by
  induction es with
  | nil => exact fun s t h => h
  | cons e es ih =>
    intro s t h
    have h' := ih (observerProcessEntry s e) t h
    unfold observerProcessEntry at h'
    split at h'
    · exact List.mem_of_mem_erase h'
    · exact h'

theorem observerRun_fired_count_of_not_observed (es : List (ℕ × Bool)) :
    ∀ (s : ObserverState) (t : ℕ), t ∉ s.observed →
      (observerRun s es).fired.count t = s.fired.count t := by
  induction es with
  | nil => exact fun s t _ => rfl
  | cons e es ih =>
    intro s t ht
    show (observerRun (observerProcessEntry s e) es).fired.count t = _
    unfold observerProcessEntry
    split
    · next hc =>
      have hne : t ∉ (s.observed.erase e.1) := fun hmem => ht (List.mem_of_mem_erase hmem)
      rw [ih _ t hne]
      have het : e.1 ≠ t := fun h => ht (h ▸ hc.2)
      simp [List.count_append, List.count_singleton, het]
    · exact ih s t ht

theorem observerRun_fired_count_le (es : List (ℕ × Bool)) :
    ∀ (s : ObserverState) (t : ℕ), s.observed.Nodup →
      (observerRun s es).fired.count t ≤ s.fired.count t + 1 := by
  induction es with
  | nil => exact fun s t _ => Nat.le_succ _
  | cons e es ih =>
    intro s t hnd
    show (observerRun (observerProcessEntry s e) es).fired.count t ≤ _
    unfold observerProcessEntry
    split
    · next hc =>
      by_cases het : e.1 = t
      · subst het
        have hnot : e.1 ∉ s.observed.erase e.1 := hnd.not_mem_erase
        rw [observerRun_fired_count_of_not_observed es _ e.1 hnot]
        simp [List.count_append]
      · calc (observerRun ⟨s.observed.erase e.1, s.fired ++ [e.1]⟩ es).fired.count t
            ≤ (s.fired ++ [e.1]).count t + 1 := ih _ t (hnd.erase e.1)
          _ = s.fired.count t + 1 := by
              simp [List.count_append, List.count_singleton, het]
    · exact ih s t hnd

/-- C5 counterexample: the counter observer does not use the 4.1
entrance-animation intersection policy. The animation observer is created
with `threshold: 0.1` and a −50px bottom root margin, while the counter
observer is created with no options at all, so its threshold is the default
0 and its root margin is zero. -/
theorem counter_observer_policy_differs :
    counterObserverOptions ≠ animationObserverOptions ∧
    counterObserverOptions.threshold = 0 ∧
    counterObserverOptions.rootMarginBottom = 0 ∧
    animationObserverOptions.threshold = 1 / 10 ∧
    animationObserverOptions.rootMarginBottom = -50 := by
  refine ⟨fun h => ?_, rfl, rfl, rfl, rfl⟩
  have ht := congrArg ObserverOptions.threshold h
  norm_num [counterObserverOptions, animationObserverOptions] at ht

/-- C5 amended: the counter's visibility trigger is one-shot — starting
from any duplicate-free observed list with nothing fired yet, an element's
counter animation is started at most once across any sequence of delivered
intersection entries, because the callback unobserves the element on first
fire — but it uses the observer API's default options (threshold 0, zero
root margin), not the 10%-threshold / −50px-bottom-margin policy of the 4.1
entrance-animation observer. -/
theorem counter_observer_one_shot (elems : List ℕ) (es : List (ℕ × Bool)) (t : ℕ)
    (hnd : elems.Nodup) :
    counterObserverOptions.threshold = 0 ∧
    counterObserverOptions.rootMarginBottom = 0 ∧
    (observerRun ⟨elems, []⟩ es).fired.count t ≤ 1 :=
  ⟨rfl, rfl, by simpa using observerRun_fired_count_le es ⟨elems, []⟩ t hnd⟩

/-- Witness for `counter_observer_one_shot`: two observed elements, element
0 reported intersecting twice; its action still fires at most once. -/
theorem counter_observer_one_shot_witness :
    ([0, 1] : List ℕ).Nodup ∧
    (observerRun ⟨[0, 1], []⟩ [(0, true), (0, true), (1, false)]).fired.count 0 ≤ 1 :=
  ⟨by decide,
    (counter_observer_one_shot [0, 1] [(0, true), (0, true), (1, false)] 0 (by decide)).2.2⟩

/-- The HTML written by a successful clock tick (src/script.js lines 78-83);
the surrounding whitespace of the JS template literal is elided, the tag
structure and the two formatted strings are kept. -/
def timeHTML (timeString dateString : String) : String :=
  "<div class=\"time-display\"><span class=\"time\">" ++ timeString ++
    "</span><span class=\"date\">" ++ dateString ++ "</span></div>"

/-- Outcome of one clock tick: the content written to the `#current-time`
element and the console warnings emitted during the tick. -/
structure TickOutcome where
  content : String
  warnings : List String
deriving DecidableEq

/-- One execution of `updateTime` (src/script.js lines 59-88). Formatting
the current instant via `toLocaleTimeString`/`toLocaleDateString` is
abstracted as an `Except` value: `Except.ok (timeString, dateString)` when
formatting succeeds, `Except.error e` when it throws with message `e`. The
try/catch makes the tick total — it returns a `TickOutcome` for every input
rather than propagating the error — logging one warning and writing the
fixed fallback text `"Time unavailable"` on failure. -/
def updateTime (fmt : Except String (String × String)) : TickOutcome :=
  match fmt with
  | Except.ok (timeString, dateString) =>
    { content := timeHTML timeString dateString, warnings := [] }
  | Except.error e =>
    { content := "Time unavailable", warnings := ["Time display error: " ++ e] }

/-- The repeating 1000ms interval of `initializeTimeDisplay` (src/script.js
line 91): tick `k` formats the instant `k` via `fmt`; every scheduled tick
runs and produces an outcome, whatever the earlier ticks did. -/
def runTicks (fmt : ℕ → Except String (String × String)) (n : ℕ) : List TickOutcome :=
  (List.range n).map fun k => updateTime (fmt k)

/-- C6: when formatting throws at tick `k`, the tick catches the error,
logs one warning, and writes the fixed fallback text; the error is never
propagated (the tick still yields an outcome in the trace) and all `n`
scheduled ticks run regardless — the trace has length `n` for every
formatter, failing or not. -/
theorem updateTime_error_fallback (fmt : ℕ → Except String (String × String))
    (n k : ℕ) (e : String) (hk : k < n) (he : fmt k = Except.error e) :
    (runTicks fmt n).length = n ∧
    (runTicks fmt n)[k]? =
      some { content := "Time unavailable", warnings := ["Time display error: " ++ e] } := by
  constructor
  · simp [runTicks]
  · simp [runTicks, List.getElem?_range hk, he, updateTime]

/-- Witness for `updateTime_error_fallback`: a formatter that always throws;
tick 1 of 3 shows the fallback and all three ticks still run. -/
theorem updateTime_error_fallback_witness :
    (1 < 3) ∧
    ((fun _ : ℕ => (Except.error "boom" : Except String (String × String))) 1 =
      Except.error "boom") ∧
    ((runTicks (fun _ => Except.error "boom") 3).length = 3 ∧
      (runTicks (fun _ => Except.error "boom") 3)[1]? =
        some { content := "Time unavailable", warnings := ["Time display error: " ++ "boom"] }) :=
  ⟨by decide, rfl, updateTime_error_fallback (fun _ => Except.error "boom") 3 1 "boom" (by decide) rfl⟩

/-- The 5000ms auto-dismiss delay of `showNotification`
(src/script.js line 347). -/
def notificationAutoDismissDelay : ℕ := 5000

/-- The 300ms slide-out before `notification.remove()`
(src/script.js lines 338 and 345). -/
def notificationExitDuration : ℕ := 300

/-- The removal events scheduled by `showNotification` (src/script.js lines
300-348) for a notification created at t = 0, as a function of the optional
time `closeAt` at which the close button is activated. The close handler
starts the slide-out and schedules removal at `closeAt + 300`. The
auto-dismiss timer at t = 5000 first checks
`document.body.contains(notification)`: it starts the slide-out and
schedules removal at 5300 exactly when no close-scheduled removal has
already happened by t = 5000. The list is never empty: with no close the
auto event is always scheduled. -/
def removalEvents (closeAt : Option ℕ) : List ℕ :=
  let closeEvents : List ℕ :=
    match closeAt with
    | none => []
    | some t => [t + notificationExitDuration]
  let presentAtAutoCheck := closeEvents.all fun r => decide (notificationAutoDismissDelay < r)
  closeEvents ++
    if presentAtAutoCheck then [notificationAutoDismissDelay + notificationExitDuration] else []

/-- The time the notification is actually removed from the document: the
earliest scheduled removal — a later `remove()` call on an already-removed
node is a no-op. The fold's base value 5300 never decides the result since
`removalEvents` is never empty and every event is at most 5300 when it is
the earliest. -/
def notificationRemovalTime (closeAt : Option ℕ) : ℕ :=
  (removalEvents closeAt).foldr min (notificationAutoDismissDelay + notificationExitDuration)

/-- C7: a notification created at t = 0 with no interaction is removed at
exactly t = 5300 (5000ms wait plus 300ms slide-out), hence by 5300ms; and
for every close-button activation time `t`, removal happens within 300ms of
the activation. -/
theorem notification_removal_bounds :
    notificationRemovalTime none = 5300 ∧
    (∀ t : ℕ, notificationRemovalTime (some t) ≤ t + notificationExitDuration) := by
  constructor
  · rfl
  · intro t
    unfold notificationRemovalTime removalEvents
    by_cases h : notificationAutoDismissDelay < t + notificationExitDuration <;>
      simp [h, Nat.min_le_left, min_le_left]

/-- The feature-item click handler's class manipulation (src/script.js lines
199-200): `featureItems.forEach(fi => fi.classList.remove('active'))`
followed by `this.classList.add('active')`. The items' "active" flags are a
list of Booleans in DOM order; clicking item `i` clears every flag and then
sets flag `i`. -/
def featureClick (items : List Bool) (i : ℕ) : List Bool :=
  (items.map fun _ => false).set i true

/-- C8: after clicking feature item `i`, exactly the clicked item carries
the "active" class: item `i` is active, every other item is inactive, and
consequently at most one item is active — whatever the flags were before
the click. -/
theorem featureClick_exclusive_active (items : List Bool) (i : ℕ) (hi : i < items.length) :
    (featureClick items i).getD i false = true ∧
    (∀ j : ℕ, j ≠ i → (featureClick items i).getD j false = false) ∧
    (∀ j k : ℕ, (featureClick items i).getD j false = true →
      (featureClick items i).getD k false = true → j = k) := by
  have hmaplen : i < (items.map fun _ => false).length := by simpa using hi
  have hself : (featureClick items i).getD i false = true := by
    unfold featureClick
    rw [List.getD_eq_getElem?_getD, List.getElem?_set_self hmaplen]
    rfl
  have hother : ∀ j : ℕ, j ≠ i → (featureClick items i).getD j false = false := by
    intro j hj
    unfold featureClick
    rw [List.getD_eq_getElem?_getD, List.getElem?_set_ne (fun h => hj h.symm)]
    rcases h : (items.map fun _ => false)[j]? with _ | b
    · rfl
    · have hb : b = false := by
        have := List.getElem?_map (fun _ => false) items j
        rw [h] at this
        rcases hx : items[j]? with _ | x
        · rw [hx] at this; simp at this
        · rw [hx] at this; simp at this; exact this
      rw [hb]; rfl
  refine ⟨hself, hother, ?_⟩
  intro j k hj hk
  by_cases hji : j = i
  · by_cases hki : k = i
    · rw [hji, hki]
    · rw [hother k hki] at hk; cases hk
  · rw [hother j hji] at hj; cases hj

/-- Witness for `featureClick_exclusive_active`: four items with item 1
active; clicking item 2 leaves exactly item 2 active. -/
theorem featureClick_exclusive_active_witness :
    (2 < ([false, true, false, false] : List Bool).length) ∧
    (featureClick [false, true, false, false] 2).getD 2 false = true ∧
    (featureClick [false, true, false, false] 2).getD 1 false = false :=
  ⟨by decide,
    (featureClick_exclusive_active [false, true, false, false] 2 (by decide)).1,
    (featureClick_exclusive_active [false, true, false, false] 2 (by decide)).2.1 1 (by decide)⟩
